import Mathlib

/-!
Shallow embedding of the three-d rendering-engine core: the directional-light
shadow subsystem (`src/light/directional_light.rs`), the instanced-draw path and
its program cache (`src/renderer/object/instanced_mesh.rs`), and the imposter
instancing helper (`src/phong/imposter.rs`).  Machine floats are modelled by
real numbers; GPU collaborator types that live outside the provided sources
(uniform buffer, camera, render-state records) are modelled from the spec's
contract for them, as noted on each definition.
-/

namespace ThreeD

/-- A 3-component float vector (`Vec3 = cgmath::Vector3<f32>`), floats modelled
by real numbers. -/
structure Vec3 where
  x : ℝ
  y : ℝ
  z : ℝ

/-- Constructor mirroring `vec3(x, y, z)` from `src/math/math.rs`. -/
def vec3 (x y z : ℝ) : Vec3 := ⟨x, y, z⟩

/-- Dot product, the out-of-scope linear-algebra collaborator (`cgmath dot`). -/
def Vec3.dot (a b : Vec3) : ℝ := a.x * b.x + a.y * b.y + a.z * b.z

/-- Cross product (`cgmath cross`). -/
def Vec3.cross (a b : Vec3) : Vec3 :=
  ⟨a.y * b.z - a.z * b.y, a.z * b.x - a.x * b.z, a.x * b.y - a.y * b.x⟩

/-- Componentwise difference (`a - b`). -/
def Vec3.sub (a b : Vec3) : Vec3 := ⟨a.x - b.x, a.y - b.y, a.z - b.z⟩

/-- Scalar multiplication written scalar-first. -/
def Vec3.smul (c : ℝ) (v : Vec3) : Vec3 := ⟨c * v.x, c * v.y, c * v.z⟩

/-- Vector-times-scalar, mirroring the Rust expression `v * c`. -/
def Vec3.mulScalar (v : Vec3) (c : ℝ) : Vec3 := ⟨v.x * c, v.y * c, v.z * c⟩

/-- Squared Euclidean magnitude. -/
def Vec3.normSq (v : Vec3) : ℝ := v.x ^ 2 + v.y ^ 2 + v.z ^ 2

/-- Euclidean magnitude (`cgmath magnitude`). -/
noncomputable def Vec3.norm (v : Vec3) : ℝ := Real.sqrt v.normSq

/-- `cgmath normalize`: multiplies by the reciprocal of the magnitude. -/
noncomputable def Vec3.normalize (v : Vec3) : Vec3 := Vec3.smul (1 / v.norm) v

/-- `Vec3Ext::to_slice` from `src/math/math.rs`: `[x, y, z]`. -/
def Vec3.to_slice (v : Vec3) : List ℝ := [v.x, v.y, v.z]

/-- Modelled from the spec: the GPU uniform buffer collaborator (not in src/)
"allocate/update a fixed-size uniform buffer by slot index"; modelled as a map
from the five slot indices of the light block to the float data last written. -/
structure UniformBuffer where
  slots : Fin 5 → List ℝ

/-- Slot-scoped write: `UniformBuffer::update(index, data)` replaces exactly the
addressed slot. -/
def UniformBuffer.update (b : UniformBuffer) (i : Fin 5) (data : List ℝ) : UniformBuffer :=
  ⟨fun j => if j = i then data else b.slots j⟩

/-- Slot read: `UniformBuffer::get(index)`. -/
def UniformBuffer.get (b : UniformBuffer) (i : Fin 5) : List ℝ := b.slots i

/-- 4×4 float matrix, column-major in the GPU layout. -/
abbrev Mat4 := Matrix (Fin 4) (Fin 4) ℝ

/-- `cgmath::Matrix4::new`: arguments are given column by column
(argument `cIrJ` is column `I`, row `J`). -/
def Mat4.new (c0r0 c0r1 c0r2 c0r3 c1r0 c1r1 c1r2 c1r3
    c2r0 c2r1 c2r2 c2r3 c3r0 c3r1 c3r2 c3r3 : ℝ) : Mat4 :=
  !![c0r0, c1r0, c2r0, c3r0;
     c0r1, c1r1, c2r1, c3r1;
     c0r2, c1r2, c2r2, c3r2;
     c0r3, c1r3, c2r3, c3r3]

/-- `Mat4Ext::to_slice` from `src/math/math.rs`: the 16 entries column-major. -/
def Mat4.to_slice (m : Mat4) : List ℝ :=
  [m 0 0, m 1 0, m 2 0, m 3 0,
   m 0 1, m 1 1, m 2 1, m 3 1,
   m 0 2, m 1 2, m 2 2, m 3 2,
   m 0 3, m 1 3, m 2 3, m 3 3]

/-- Modelled from the spec: the orthographic camera collaborator (not in src/)
records view parameters (eye position, target, up) and frustum extents; the
projection/view matrix assembly is the out-of-scope math capability and is
passed as explicit function parameters where needed. -/
structure Camera where
  position : Vec3
  target : Vec3
  up : Vec3
  width : ℝ
  height : ℝ
  depth : ℝ

/-- `Camera::new_orthographic(position, target, up, width, height, depth)`. -/
def Camera.new_orthographic (position target up : Vec3) (width height depth : ℝ) : Camera :=
  ⟨position, target, up, width, height, depth⟩

/-- The bias matrix literal from `shadow_matrix` in
`src/light/directional_light.rs`, read column-major as `cgmath` does. -/
def bias_matrix : Mat4 :=
  Mat4.new 0.5 0.0 0.0 0.0 0.0 0.5 0.0 0.0 0.0 0.0 0.5 0.0 0.5 0.5 0.5 1.0

/-- `shadow_matrix(camera) = bias * projection * view`, with the camera's
projection and view matrix constructors passed as parameters. -/
def shadow_matrix (projection view : Camera → Mat4) (camera : Camera) : Mat4 :=
  bias_matrix * projection camera * view camera

/-- `compute_up_direction` from `src/light/directional_light.rs`. -/
noncomputable def compute_up_direction (direction : Vec3) : Vec3 :=
  if 0.9 < |(vec3 1.0 0.0 0.0).dot direction| then
    ((vec3 0.0 1.0 0.0).cross direction).normalize
  else
    ((vec3 1.0 0.0 0.0).cross direction).normalize

/-- Modelled from the spec: the depth-texture collaborator (not in src/); the
model keeps only its allocation size, "resized/reallocated on every
generate_shadow_map call". -/
structure DepthTargetTexture2D where
  width : ℕ
  height : ℕ

/-- `DepthTargetTexture2D::new` with the wrap modes and depth format elided. -/
def DepthTargetTexture2D.new (width height : ℕ) : DepthTargetTexture2D := ⟨width, height⟩

/-- The `DirectionalLight` struct from `src/light/directional_light.rs`
(the GPU context handle is elided). -/
structure DirectionalLight where
  light_buffer : UniformBuffer
  shadow_texture : DepthTargetTexture2D
  shadow_camera : Option Camera

/-- `DirectionalLight::set_color`: one write to slot 0. -/
def DirectionalLight.set_color (l : DirectionalLight) (color : Vec3) : DirectionalLight :=
  { l with light_buffer := l.light_buffer.update 0 color.to_slice }

/-- `DirectionalLight::set_intensity`: one write to slot 1. -/
def DirectionalLight.set_intensity (l : DirectionalLight) (intensity : ℝ) : DirectionalLight :=
  { l with light_buffer := l.light_buffer.update 1 [intensity] }

/-- `DirectionalLight::set_direction`: normalizes, then one write to slot 2. -/
noncomputable def DirectionalLight.set_direction (l : DirectionalLight) (direction : Vec3) :
    DirectionalLight :=
  { l with light_buffer := l.light_buffer.update 2 direction.normalize.to_slice }

/-- `DirectionalLight::direction`: reads slot 2 back as a vector, without
renormalizing. -/
def DirectionalLight.direction (l : DirectionalLight) : Vec3 :=
  let d := l.light_buffer.get 2
  vec3 (d.getD 0 0) (d.getD 1 0) (d.getD 2 0)

/-- `DirectionalLight::clear_shadow_map`: drops the camera, reallocates the 1×1
placeholder texture, writes 0.0 to slot 3. -/
def DirectionalLight.clear_shadow_map (l : DirectionalLight) : DirectionalLight :=
  { l with
    shadow_camera := none
    shadow_texture := DepthTargetTexture2D.new 1 1
    light_buffer := l.light_buffer.update 3 [0.0] }

/-- Axis-aligned bounding box of a geometry. -/
structure AxisAlignedBoundingBox where
  lower : Vec3
  upper : Vec3

/-- The `Geometry` collaborator contract: an optional bounding box, and whether
its `render_depth` call succeeds (the depth output itself is not modelled). -/
structure Geometry where
  aabb : Option AxisAlignedBoundingBox
  render_depth_ok : Bool

/-- The per-geometry inclusion test of `generate_shadow_map`:
`geometry.aabb().map(|aabb| camera.in_frustum(&aabb)).unwrap_or(true)`, with the
camera frustum test (core code, not in src/) passed as a parameter. -/
def geometry_included (in_frustum : Camera → AxisAlignedBoundingBox → Bool)
    (camera : Camera) (geometry : Geometry) : Bool :=
  (geometry.aabb.map fun aabb => in_frustum camera aabb).getD true

/-- The geometries that the depth pass of `generate_shadow_map` renders. -/
def rendered_geometries (in_frustum : Camera → AxisAlignedBoundingBox → Bool)
    (camera : Camera) (geometries : List Geometry) : List Geometry :=
  geometries.filter (geometry_included in_frustum camera)

/-- Error outcomes of the fallible steps in `generate_shadow_map`. -/
inductive Error where
  | camera_creation
  | buffer_update
  | render_depth
deriving DecidableEq

/-- The shadow camera built by `generate_shadow_map`: eye at
`target - direction.normalize() * 0.5 * frustrum_depth`, looking at `target`
with the derived up vector. -/
noncomputable def shadow_camera_of (direction target : Vec3)
    (frustrum_width frustrum_height frustrum_depth : ℝ) : Camera :=
  Camera.new_orthographic
    (target.sub ((direction.normalize.mulScalar 0.5).mulScalar frustrum_depth))
    target (compute_up_direction direction)
    frustrum_width frustrum_height frustrum_depth

/-- `DirectionalLight::generate_shadow_map`.  The camera matrix constructors
and the frustum test are collaborator parameters; `camera_ok`, `update4_ok` and
`update3_ok` are the success outcomes of the fallible collaborator calls
(camera creation, the slot-4 buffer update, the slot-3 buffer update), in the
order the source performs them; the depth-texture reallocation is `unwrap`ped
in the source (a failure panics rather than returning) and so is modelled
infallible.  On an error return, the state reflects exactly the mutations made
before the failing step, as in the source. -/
noncomputable def DirectionalLight.generate_shadow_map
    (projection view : Camera → Mat4)
    (in_frustum : Camera → AxisAlignedBoundingBox → Bool)
    (camera_ok update4_ok update3_ok : Bool)
    (l : DirectionalLight) (target : Vec3)
    (frustrum_width frustrum_height frustrum_depth : ℝ)
    (texture_width texture_height : ℕ)
    (geometries : List Geometry) : DirectionalLight × Option Error :=
  if camera_ok then
    let camera := shadow_camera_of l.direction target
      frustrum_width frustrum_height frustrum_depth
    let l1 : DirectionalLight := { l with shadow_camera := some camera }
    if update4_ok then
      let l2 : DirectionalLight :=
        { l1 with light_buffer :=
            l1.light_buffer.update 4 (shadow_matrix projection view camera).to_slice }
      let l3 : DirectionalLight :=
        { l2 with shadow_texture := DepthTargetTexture2D.new texture_width texture_height }
      if (rendered_geometries in_frustum camera geometries).all
          (fun g => g.render_depth_ok) then
        if update3_ok then
          ({ l3 with light_buffer := l3.light_buffer.update 3 [1.0] }, none)
        else (l3, some Error.buffer_update)
      else (l3, some Error.render_depth)
    else (l1, some Error.buffer_update)
  else (l, some Error.camera_creation)

/-- The `Imposter` struct from `src/phong/imposter.rs`; the vertex buffers are
modelled by the float data they hold, GPU handles are elided. -/
structure Imposter where
  center_buffer : List ℝ
  rotation_buffer : List ℝ
  positions_buffer : List ℝ
  uvs_buffer : List ℝ
  instance_count : ℕ

/-- `Imposter::update_positions`: fills the center and rotation buffers and sets
`instance_count = positions.len() as u32 / 3` (the `as u32` cast is the
reduction modulo `2^32`). -/
def Imposter.update_positions (imp : Imposter) (positions angles_in_radians : List ℝ) :
    Imposter :=
  { imp with
    center_buffer := positions
    rotation_buffer := angles_in_radians
    instance_count := positions.length % 2 ^ 32 / 3 }

/-- The process-wide globals of `src/renderer/object/instanced_mesh.rs`:
`MESH_COUNT` (live instanced-model count) and `PROGRAMS` (the lazily created
program cache, `None` when torn down); a cache entry is identified by its
fragment-shader source key. -/
structure ProgramCacheState where
  mesh_count : ℕ
  programs : Option (List String)

/-- The initial global state: no live models, no cache. -/
def initialProgramCacheState : ProgramCacheState := ⟨0, none⟩

/-- `InstancedModel::get_or_insert_program`: creates the cache if absent,
compiles and inserts on a miss.  Returns the new state and whether a fresh
compilation happened. -/
def ProgramCacheState.get_or_insert (s : ProgramCacheState) (source : String) :
    ProgramCacheState × Bool :=
  let cache := s.programs.getD []
  if source ∈ cache then ({ s with programs := some cache }, false)
  else ({ s with programs := some (cache ++ [source]) }, true)

/-- The operations that touch the globals: constructing an `InstancedModel`,
dropping one, and a program lookup by a live model. -/
inductive ProgramOp where
  | newModel
  | dropModel
  | getOrInsert (source : String)
deriving DecidableEq

/-- Effect of one operation on the globals: `new` increments `MESH_COUNT`;
`drop` decrements it and tears the whole cache down at zero; a lookup runs
`get_or_insert_program`. -/
def ProgramCacheState.step (s : ProgramCacheState) : ProgramOp → ProgramCacheState
  | ProgramOp.newModel => { s with mesh_count := s.mesh_count + 1 }
  | ProgramOp.dropModel =>
      let c := s.mesh_count - 1
      ⟨c, if c = 0 then none else s.programs⟩
  | ProgramOp.getOrInsert source => (s.get_or_insert source).1

/-- Run a sequence of operations. -/
def ProgramCacheState.run (s : ProgramCacheState) : List ProgramOp → ProgramCacheState
  | [] => s
  | op :: ops => (s.step op).run ops

/-- A trace is valid when `drop` and `get_or_insert_program` only occur while a
live model exists: both are operations of an existing `InstancedModel`. -/
def ProgramCacheState.validb (s : ProgramCacheState) : List ProgramOp → Bool
  | [] => true
  | op :: ops =>
      (match op with
        | ProgramOp.newModel => true
        | ProgramOp.dropModel => decide (1 ≤ s.mesh_count)
        | ProgramOp.getOrInsert _ => decide (1 ≤ s.mesh_count))
      && (s.step op).validb ops

/-- Modelled from the spec: face-culling mode (core code, not in src/);
`CullType::default()` is no culling. -/
inductive CullType where
  | noCull
  | back
  | front
  | frontAndBack
deriving DecidableEq

/-- Modelled from the spec: the channel write mask (core code, not in src/);
the default writes all color channels and depth. -/
structure WriteMask where
  red : Bool
  green : Bool
  blue : Bool
  alpha : Bool
  depth : Bool
deriving DecidableEq

/-- The default write mask: every channel and depth enabled. -/
def WriteMask.default : WriteMask := ⟨true, true, true, true, true⟩

/-- `WriteMask::COLOR`: color channels only, no depth write. -/
def WriteMask.COLOR : WriteMask := ⟨true, true, true, true, false⟩

/-- Modelled from the spec: blend factors for the blend equation. -/
inductive BlendFactor where
  | zero
  | one
  | srcAlpha
  | oneMinusSrcAlpha
deriving DecidableEq

/-- Modelled from the spec: blending parameters (core code, not in src/). -/
structure BlendParameters where
  source : BlendFactor
  destination : BlendFactor
deriving DecidableEq

/-- `BlendParameters::TRANSPARENCY`: standard src-alpha/one-minus-src-alpha. -/
def BlendParameters.TRANSPARENCY : BlendParameters :=
  ⟨BlendFactor.srcAlpha, BlendFactor.oneMinusSrcAlpha⟩

/-- Modelled from the spec: depth-test mode; the default is an enabled
less-or-equal test. -/
inductive DepthTestType where
  | never
  | less
  | lessOrEqual
  | always
deriving DecidableEq

/-- Modelled from the spec: the render-state record (core code, not in src/):
cull mode, write mask, blending and depth test. -/
structure RenderStates where
  cull : CullType
  write_mask : WriteMask
  blend : Option BlendParameters
  depth_test : DepthTestType
deriving DecidableEq

/-- `RenderStates::default()`: default cull, full write mask, no blending,
depth test enabled. -/
def RenderStates.default : RenderStates :=
  ⟨CullType.noCull, WriteMask.default, none, DepthTestType.lessOrEqual⟩

/-- An sRGBA color with 8-bit channels, each modelled as a natural number. -/
structure Color where
  r : ℕ
  g : ℕ
  b : ℕ
  a : ℕ
deriving DecidableEq

/-- The `InstancedModel` struct from `src/renderer/object/instanced_mesh.rs`,
reduced to its configured cull mode (context and mesh handles elided). -/
structure InstancedModel where
  cull : CullType
deriving DecidableEq

/-- `InstancedModel::render_states(transparent)` from
`src/renderer/object/instanced_mesh.rs`. -/
def InstancedModel.render_states (m : InstancedModel) (transparent : Bool) : RenderStates :=
  if transparent then
    { RenderStates.default with
      cull := m.cull
      write_mask := WriteMask.COLOR
      blend := some BlendParameters.TRANSPARENCY }
  else
    { RenderStates.default with cull := m.cull }

/-- The render state that `InstancedModel::render_with_color` passes to
`mesh.render`: `self.render_states(color.a != 255)`. -/
def InstancedModel.render_with_color_states (m : InstancedModel) (color : Color) :
    RenderStates :=
  m.render_states (color.a != 255)

/-- A concrete uniform buffer whose direction slot holds the unit z vector. -/
def exampleBuffer : UniformBuffer := ⟨fun j => if j = 2 then [0, 0, 1] else []⟩

/-- A concrete light state used to instantiate theorems with hypotheses. -/
def exampleLight : DirectionalLight := ⟨exampleBuffer, ⟨1, 1⟩, none⟩

/-- A concrete imposter with empty buffers. -/
def exampleImposter : Imposter := ⟨[], [], [], [], 0⟩

/-! ### Helper lemmas -/

@[simp]
theorem UniformBuffer.get_update_same (b : UniformBuffer) (i : Fin 5) (data : List ℝ) :
    (b.update i data).get i = data := by
  simp [UniformBuffer.update, UniformBuffer.get]

theorem UniformBuffer.get_update_ne (b : UniformBuffer) (i j : Fin 5) (data : List ℝ)
    (h : j ≠ i) : (b.update i data).get j = b.get j := by
  simp [UniformBuffer.update, UniformBuffer.get, h]

@[simp]
theorem UniformBuffer.get2_update3 (b : UniformBuffer) (data : List ℝ) :
    (b.update 3 data).get 2 = b.get 2 :=
  b.get_update_ne 3 2 data (by decide)

@[simp]
theorem UniformBuffer.get2_update4 (b : UniformBuffer) (data : List ℝ) :
    (b.update 4 data).get 2 = b.get 2 :=
  b.get_update_ne 4 2 data (by decide)

@[simp]
theorem UniformBuffer.get3_update4 (b : UniformBuffer) (data : List ℝ) :
    (b.update 4 data).get 3 = b.get 3 :=
  b.get_update_ne 4 3 data (by decide)

@[simp]
theorem UniformBuffer.get4_update3 (b : UniformBuffer) (data : List ℝ) :
    (b.update 3 data).get 4 = b.get 4 :=
  b.get_update_ne 3 4 data (by decide)

theorem Vec3.normSq_nonneg (v : Vec3) : 0 ≤ v.normSq := by
  unfold Vec3.normSq; positivity

theorem Vec3.norm_nonneg (v : Vec3) : 0 ≤ v.norm := Real.sqrt_nonneg _

theorem Vec3.norm_smul (c : ℝ) (v : Vec3) : (Vec3.smul c v).norm = |c| * v.norm := by
  unfold Vec3.norm Vec3.normSq Vec3.smul
  dsimp only
  rw [show (c * v.x) ^ 2 + (c * v.y) ^ 2 + (c * v.z) ^ 2
        = c ^ 2 * (v.x ^ 2 + v.y ^ 2 + v.z ^ 2) by ring]
  rw [Real.sqrt_mul (sq_nonneg c), Real.sqrt_sq_eq_abs]

theorem Vec3.dot_smul_left (c : ℝ) (v w : Vec3) :
    (Vec3.smul c v).dot w = c * v.dot w := by
  unfold Vec3.dot Vec3.smul; dsimp only; ring

theorem Vec3.normSq_pos_of_ne_zero (v : Vec3) (h : v ≠ vec3 0 0 0) : 0 < v.normSq := by
  rcases v with ⟨x, y, z⟩
  rcases (Vec3.normSq_nonneg ⟨x, y, z⟩).lt_or_eq with hlt | heq
  · exact hlt
  · exfalso
    apply h
    unfold Vec3.normSq at heq
    dsimp only at heq
    have hx : x ^ 2 = 0 := by nlinarith [sq_nonneg x, sq_nonneg y, sq_nonneg z]
    have hy : y ^ 2 = 0 := by nlinarith [sq_nonneg x, sq_nonneg y, sq_nonneg z]
    have hz : z ^ 2 = 0 := by nlinarith [sq_nonneg x, sq_nonneg y, sq_nonneg z]
    simp only [vec3, Vec3.mk.injEq]
    exact ⟨pow_eq_zero_iff two_ne_zero |>.mp hx,
      pow_eq_zero_iff two_ne_zero |>.mp hy,
      pow_eq_zero_iff two_ne_zero |>.mp hz⟩

theorem Vec3.norm_pos_of_ne_zero (v : Vec3) (h : v ≠ vec3 0 0 0) : 0 < v.norm :=
  Real.sqrt_pos.mpr (v.normSq_pos_of_ne_zero h)

theorem Vec3.norm_normalize_of_normSq_pos (v : Vec3) (h : 0 < v.normSq) :
    v.normalize.norm = 1 := by
  unfold Vec3.normalize
  rw [Vec3.norm_smul]
  have hpos : 0 < v.norm := Real.sqrt_pos.mpr h
  rw [abs_of_pos (by positivity)]
  field_simp

theorem Vec3.normSq_eq_one_of_norm_eq_one (v : Vec3) (h : v.norm = 1) : v.normSq = 1 :=
  Real.sqrt_eq_one.mp h

theorem Vec3.normalize_of_norm_one (v : Vec3) (h : v.norm = 1) : v.normalize = v := by
  unfold Vec3.normalize
  rw [h]
  rcases v with ⟨x, y, z⟩
  simp [Vec3.smul]

theorem Vec3.vec3_to_slice_getD (v : Vec3) :
    vec3 (v.to_slice.getD 0 0) (v.to_slice.getD 1 0) (v.to_slice.getD 2 0) = v := by
  rcases v with ⟨x, y, z⟩
  simp [Vec3.to_slice, vec3]

theorem DirectionalLight.direction_clear_shadow_map (l : DirectionalLight) :
    l.clear_shadow_map.direction = l.direction := by
  simp [DirectionalLight.clear_shadow_map, DirectionalLight.direction]

theorem DirectionalLight.generate_shadow_map_fst_get4
    (projection view : Camera → Mat4) (in_frustum : Camera → AxisAlignedBoundingBox → Bool)
    (update3_ok : Bool) (l : DirectionalLight) (target : Vec3)
    (frustrum_width frustrum_height frustrum_depth : ℝ)
    (texture_width texture_height : ℕ) (geometries : List Geometry) :
    ((l.generate_shadow_map projection view in_frustum true true update3_ok target
        frustrum_width frustrum_height frustrum_depth
        texture_width texture_height geometries).1).light_buffer.get 4
      = (shadow_matrix projection view
          (shadow_camera_of l.direction target
            frustrum_width frustrum_height frustrum_depth)).to_slice := by
  unfold DirectionalLight.generate_shadow_map
  simp only [if_true]
  split
  · split
    · simp
    · simp
  · simp

theorem DirectionalLight.generate_shadow_map_fst_direction
    (projection view : Camera → Mat4) (in_frustum : Camera → AxisAlignedBoundingBox → Bool)
    (update3_ok : Bool) (l : DirectionalLight) (target : Vec3)
    (frustrum_width frustrum_height frustrum_depth : ℝ)
    (texture_width texture_height : ℕ) (geometries : List Geometry) :
    ((l.generate_shadow_map projection view in_frustum true true update3_ok target
        frustrum_width frustrum_height frustrum_depth
        texture_width texture_height geometries).1).direction = l.direction := by
  unfold DirectionalLight.generate_shadow_map
  simp only [if_true]
  split
  · split
    · simp [DirectionalLight.direction]
    · simp [DirectionalLight.direction]
  · simp [DirectionalLight.direction]

theorem DirectionalLight.generate_shadow_map_fst_camera
    (projection view : Camera → Mat4) (in_frustum : Camera → AxisAlignedBoundingBox → Bool)
    (update3_ok : Bool) (l : DirectionalLight) (target : Vec3)
    (frustrum_width frustrum_height frustrum_depth : ℝ)
    (texture_width texture_height : ℕ) (geometries : List Geometry) :
    ((l.generate_shadow_map projection view in_frustum true true update3_ok target
        frustrum_width frustrum_height frustrum_depth
        texture_width texture_height geometries).1).shadow_camera
      = some (shadow_camera_of l.direction target
          frustrum_width frustrum_height frustrum_depth) := by
  unfold DirectionalLight.generate_shadow_map
  simp only [if_true]
  split
  · split
    · simp
    · simp
  · simp

theorem shadow_camera_of_norm_one (direction target : Vec3)
    (frustrum_width frustrum_height frustrum_depth : ℝ) (h : direction.norm = 1) :
    shadow_camera_of direction target frustrum_width frustrum_height frustrum_depth
      = Camera.new_orthographic
          (target.sub (Vec3.smul (0.5 * frustrum_depth) direction)) target
          (compute_up_direction direction)
          frustrum_width frustrum_height frustrum_depth := by
  unfold shadow_camera_of
  rw [Vec3.normalize_of_norm_one direction h]
  rcases direction with ⟨x, y, z⟩
  rcases target with ⟨tx, ty, tz⟩
  simp only [Camera.new_orthographic, Vec3.sub, Vec3.smul, Vec3.mulScalar,
    Camera.mk.injEq, Vec3.mk.injEq]
  refine ⟨⟨by ring, by ring, by ring⟩, trivial, trivial, trivial, trivial, trivial⟩

theorem ProgramCacheState.get_or_insert_mesh_count (s : ProgramCacheState) (source : String) :
    ((s.get_or_insert source).1).mesh_count = s.mesh_count := by
  unfold ProgramCacheState.get_or_insert
  dsimp only
  split <;> rfl

theorem ProgramCacheState.get_or_insert_fresh (s : ProgramCacheState) (source : String)
    (h : s.programs = none) : (s.get_or_insert source).2 = true := by
  unfold ProgramCacheState.get_or_insert
  simp [h]

theorem ProgramCacheState.inv_run (ops : List ProgramOp) :
    ∀ s : ProgramCacheState, (s.mesh_count = 0 → s.programs = none) →
      s.validb ops = true →
      ((s.run ops).mesh_count = 0 → (s.run ops).programs = none) := by
  induction ops with
  | nil => intro s hs _; exact hs
  | cons op ops ih =>
    intro s hs hv
    simp only [ProgramCacheState.validb, Bool.and_eq_true] at hv
    refine ih (s.step op) ?_ hv.2
    cases op with
    | newModel =>
      intro h
      simp [ProgramCacheState.step] at h
    | dropModel =>
      intro h
      simp only [ProgramCacheState.step] at h ⊢
      simp [h]
    | getOrInsert source =>
      intro h
      have hg : 1 ≤ s.mesh_count := by simpa using hv.1
      rw [show s.step (ProgramOp.getOrInsert source) = (s.get_or_insert source).1 from rfl,
        ProgramCacheState.get_or_insert_mesh_count] at h
      omega

theorem exampleLight_direction : exampleLight.direction = vec3 0 0 1 := by
  simp [exampleLight, exampleBuffer, DirectionalLight.direction, UniformBuffer.get]

theorem vec3_unitZ_norm : (vec3 0 0 1).norm = 1 := by
  unfold Vec3.norm Vec3.normSq vec3
  dsimp only
  rw [show (0 : ℝ) ^ 2 + 0 ^ 2 + 1 ^ 2 = 1 by norm_num, Real.sqrt_one]

theorem vec3_unitX_norm : (vec3 1 0 0).norm = 1 := by
  unfold Vec3.norm Vec3.normSq vec3
  dsimp only
  rw [show (1 : ℝ) ^ 2 + 0 ^ 2 + 0 ^ 2 = 1 by norm_num, Real.sqrt_one]

/-! ### Claim theorems -/

/-- C1 counterexample: `update_positions` with a positions array of length 10
(not divisible by 3) does not produce an error — the function is total, stores
all 10 floats in the center buffer and silently derives `instance_count = 3`
by truncating division, contradicting the claim's "defined error" clause. -/
theorem update_positions_malformed_length_truncates :
    (exampleImposter.update_positions
        [0, 0, 0, 0, 0, 0, 0, 0, 0, 0] []).instance_count = 3 ∧
    (exampleImposter.update_positions
        [0, 0, 0, 0, 0, 0, 0, 0, 0, 0] []).center_buffer
      = [0, 0, 0, 0, 0, 0, 0, 0, 0, 0] ∧
    ¬ (10 % 3 = 0) := by
  refine ⟨?_, rfl, by decide⟩
  rfl

/-- C1 (amended): `update_positions` derives
`instance_count = positions.len() as u32 / 3`; a length of 9 yields exactly 3
instances, and a length not divisible by 3 is not an error: the count is the
truncating division and the whole array is still stored. -/
theorem update_positions_instance_count (imp : Imposter) (positions angles : List ℝ) :
    (imp.update_positions positions angles).instance_count
        = positions.length % 2 ^ 32 / 3 ∧
    (positions.length = 9 → (imp.update_positions positions angles).instance_count = 3) ∧
    (imp.update_positions positions angles).center_buffer = positions := by
  refine ⟨rfl, fun h => ?_, rfl⟩
  simp [Imposter.update_positions, h]

/-- C1 witness: a positions array of length 9 yields `instance_count = 3`. -/
theorem update_positions_instance_count_witness :
    (exampleImposter.update_positions [1, 1, 1, 2, 2, 2, 3, 3, 3] []).instance_count = 3 :=
  (update_positions_instance_count exampleImposter [1, 1, 1, 2, 2, 2, 3, 3, 3] []).2.1 rfl

/-- C2: along any valid trace of instanced-model constructions, drops and
program lookups (drops and lookups only ever performed by a live model),
whenever the live-count `MESH_COUNT` is zero the cache `PROGRAMS` holds no
entries, and from an empty cache any lookup — also of a previously-seen
source — triggers a fresh compilation. -/
theorem mesh_count_zero_cache_torn_down (ops : List ProgramOp)
    (hvalid : initialProgramCacheState.validb ops = true) :
    ((initialProgramCacheState.run ops).mesh_count = 0 →
      (initialProgramCacheState.run ops).programs = none) ∧
    (∀ source : String, (initialProgramCacheState.run ops).programs = none →
      ((initialProgramCacheState.run ops).get_or_insert source).2 = true) := by
  constructor
  · exact ProgramCacheState.inv_run ops initialProgramCacheState (fun _ => rfl) hvalid
  · intro source h
    exact ProgramCacheState.get_or_insert_fresh _ source h

/-- C2 witness: construct a model, look up a source, drop the model — the
live-count crosses zero and the cache is torn down; a repeated lookup from the
resulting state would compile afresh. -/
theorem mesh_count_zero_cache_torn_down_witness :
    (initialProgramCacheState.run
        [ProgramOp.newModel, ProgramOp.getOrInsert "source", ProgramOp.dropModel]).programs
      = none ∧
    ((initialProgramCacheState.run
        [ProgramOp.newModel, ProgramOp.getOrInsert "source",
          ProgramOp.dropModel]).get_or_insert "source").2 = true := by
  have h := mesh_count_zero_cache_torn_down
    [ProgramOp.newModel, ProgramOp.getOrInsert "source", ProgramOp.dropModel] (by decide)
  refine ⟨h.1 (by decide), h.2 "source" (h.1 (by decide))⟩

/-- C4: `set_direction(d)` followed by `direction()` returns the stored
normalized vector: a unit-length positive multiple of `d` (for any nonzero
`d`, unit-length or not), read back without renormalizing. -/
theorem set_direction_direction_roundtrip (l : DirectionalLight) (d : Vec3)
    (h : d ≠ vec3 0 0 0) :
    (l.set_direction d).direction = Vec3.smul (1 / d.norm) d ∧
    ((l.set_direction d).direction).norm = 1 ∧
    0 < 1 / d.norm := by
  have hget : (l.set_direction d).direction = d.normalize := by
    rcases hd : d.normalize with ⟨x, y, z⟩
    simp [DirectionalLight.set_direction, DirectionalLight.direction, hd,
      Vec3.to_slice, vec3]
  have hpos : 0 < d.normSq := d.normSq_pos_of_ne_zero h
  have hn : 0 < d.norm := Real.sqrt_pos.mpr hpos
  refine ⟨by rw [hget]; rfl, ?_, ?_⟩
  · rw [hget]
    exact d.norm_normalize_of_normSq_pos hpos
  · positivity

/-- C4 witness: storing the non-unit vector `(0, 0, 2)` reads back a unit
vector. -/
theorem set_direction_direction_roundtrip_witness :
    ((exampleLight.set_direction (vec3 0 0 2)).direction).norm = 1 :=
  (set_direction_direction_roundtrip exampleLight (vec3 0 0 2)
    (by simp [vec3])).2.1

/-- C3: for a unit direction `d`, the derived up vector is orthogonal to `d`
and of unit (hence non-zero) length, and it is exactly
`normalize(cross(worldY, d))` when `|dot(worldX, d)| > 0.9` and
`normalize(cross(worldX, d))` otherwise: the axis-selection fallback always
picks a reference axis that is not parallel to `d`. -/
theorem compute_up_direction_orthogonal_unit (d : Vec3) (h : d.norm = 1) :
    (compute_up_direction d).dot d = 0 ∧
    (compute_up_direction d).norm = 1 ∧
    compute_up_direction d
      = if 0.9 < |(vec3 1.0 0.0 0.0).dot d| then ((vec3 0.0 1.0 0.0).cross d).normalize
        else ((vec3 1.0 0.0 0.0).cross d).normalize := by
  have hsq : d.normSq = 1 := d.normSq_eq_one_of_norm_eq_one h
  have hsq' : d.x ^ 2 + d.y ^ 2 + d.z ^ 2 = 1 := hsq
  have hdotX : (vec3 1.0 0.0 0.0).dot d = d.x := by
    rcases d with ⟨x, y, z⟩
    simp only [Vec3.dot, vec3]
    norm_num
  have hdot : ∀ a : Vec3, ((a.cross d).normalize).dot d = 0 := by
    intro a
    unfold Vec3.normalize
    rw [Vec3.dot_smul_left]
    have hz : (a.cross d).dot d = 0 := by
      rcases a with ⟨ax, ay, az⟩
      rcases d with ⟨x, y, z⟩
      unfold Vec3.cross Vec3.dot
      dsimp only
      ring
    rw [hz, mul_zero]
  have hnorm : (compute_up_direction d).norm = 1 := by
    unfold compute_up_direction
    by_cases h9 : 0.9 < |(vec3 1.0 0.0 0.0).dot d|
    · rw [if_pos h9]
      apply Vec3.norm_normalize_of_normSq_pos
      have hx : (9 : ℝ) / 10 < |d.x| := by
        rw [hdotX] at h9
        rw [show (9 : ℝ) / 10 = 0.9 by norm_num]
        exact h9
      have hcross : (vec3 0.0 1.0 0.0).cross d = ⟨d.z, 0, -d.x⟩ := by
        rcases d with ⟨x, y, z⟩
        simp only [Vec3.cross, vec3, Vec3.mk.injEq]
        norm_num
      rw [hcross]
      unfold Vec3.normSq
      dsimp only
      nlinarith [hx, abs_nonneg d.x, sq_abs d.x, sq_nonneg d.z]
    · rw [if_neg h9]
      apply Vec3.norm_normalize_of_normSq_pos
      have hx : |d.x| ≤ (9 : ℝ) / 10 := by
        rw [hdotX] at h9
        push_neg at h9
        rw [show (9 : ℝ) / 10 = 0.9 by norm_num]
        exact h9
      have hcross : (vec3 1.0 0.0 0.0).cross d = ⟨0, -d.z, d.y⟩ := by
        rcases d with ⟨x, y, z⟩
        simp only [Vec3.cross, vec3, Vec3.mk.injEq]
        norm_num
      rw [hcross]
      unfold Vec3.normSq
      dsimp only
      nlinarith [hx, abs_nonneg d.x, sq_abs d.x, sq_nonneg d.y, sq_nonneg d.z, hsq']
  refine ⟨?_, hnorm, rfl⟩
  unfold compute_up_direction
  by_cases h9 : 0.9 < |(vec3 1.0 0.0 0.0).dot d|
  · rw [if_pos h9]
    exact hdot _
  · rw [if_neg h9]
    exact hdot _

/-- C3 witness: for the unit direction `(1, 0, 0)` (which takes the world-Y
fallback branch), the derived up vector is orthogonal to it and unit length. -/
theorem compute_up_direction_orthogonal_unit_witness :
    (compute_up_direction (vec3 1 0 0)).dot (vec3 1 0 0) = 0 ∧
    (compute_up_direction (vec3 1 0 0)).norm = 1 :=
  ⟨(compute_up_direction_orthogonal_unit (vec3 1 0 0) vec3_unitX_norm).1,
   (compute_up_direction_orthogonal_unit (vec3 1 0 0) vec3_unitX_norm).2.1⟩

/-- C5: running `generate_shadow_map`, then `clear_shadow_map`, then
`generate_shadow_map` with identical arguments leaves exactly the same
shadow-transform data in slot 4 as the single direct call from the same
starting state: the cleared cycle leaks no state into the recomputation. -/
theorem generate_clear_generate_transform_roundtrip
    (projection view : Camera → Mat4) (in_frustum : Camera → AxisAlignedBoundingBox → Bool)
    (l : DirectionalLight) (target : Vec3)
    (frustrum_width frustrum_height frustrum_depth : ℝ)
    (texture_width texture_height : ℕ) (geometries : List Geometry) :
    ((((l.generate_shadow_map projection view in_frustum true true true target
          frustrum_width frustrum_height frustrum_depth texture_width texture_height
          geometries).1.clear_shadow_map).generate_shadow_map projection view in_frustum
          true true true target frustrum_width frustrum_height frustrum_depth
          texture_width texture_height geometries).1).light_buffer.get 4
      = ((l.generate_shadow_map projection view in_frustum true true true target
          frustrum_width frustrum_height frustrum_depth texture_width texture_height
          geometries).1).light_buffer.get 4 := by
  rw [DirectionalLight.generate_shadow_map_fst_get4,
    DirectionalLight.generate_shadow_map_fst_get4,
    DirectionalLight.direction_clear_shadow_map,
    DirectionalLight.generate_shadow_map_fst_direction]

/-- C6: in the depth pass of `generate_shadow_map`, a geometry is rendered
whenever it has no bounding box, and whenever its bounding box passes the
shadow camera's frustum test; a geometry is skipped only when it has a
bounding box and that box fails the frustum test. -/
theorem frustum_culling_conservative
    (in_frustum : Camera → AxisAlignedBoundingBox → Bool) (camera : Camera)
    (geometries : List Geometry) (g : Geometry) (hg : g ∈ geometries) :
    (g.aabb = none → g ∈ rendered_geometries in_frustum camera geometries) ∧
    (∀ aabb, g.aabb = some aabb → in_frustum camera aabb = true →
      g ∈ rendered_geometries in_frustum camera geometries) ∧
    (g ∉ rendered_geometries in_frustum camera geometries →
      ∃ aabb, g.aabb = some aabb ∧ in_frustum camera aabb = false) := by
  refine ⟨fun hnone => ?_, fun aabb habb hin => ?_, fun hnot => ?_⟩
  · exact List.mem_filter.mpr ⟨hg, by simp [geometry_included, hnone]⟩
  · exact List.mem_filter.mpr ⟨hg, by simp [geometry_included, habb, hin]⟩
  · cases hmem : g.aabb with
    | none =>
      exact absurd (List.mem_filter.mpr ⟨hg, by simp [geometry_included, hmem]⟩) hnot
    | some aabb =>
      cases hin : in_frustum camera aabb with
      | false => exact ⟨aabb, rfl, hin⟩
      | true =>
        exact absurd
          (List.mem_filter.mpr ⟨hg, by simp [geometry_included, hmem, hin]⟩) hnot

/-- C6 witness: a geometry without a bounding box is rendered even when the
frustum test would reject everything. -/
theorem frustum_culling_conservative_witness :
    Geometry.mk none true ∈
      rendered_geometries (fun _ _ => false)
        (Camera.new_orthographic (vec3 0 0 0) (vec3 0 0 0) (vec3 0 0 0) 1 1 1)
        [Geometry.mk none true] :=
  (frustum_culling_conservative (fun _ _ => false)
    (Camera.new_orthographic (vec3 0 0 0) (vec3 0 0 0) (vec3 0 0 0) 1 1 1)
    [Geometry.mk none true] (Geometry.mk none true) (by simp)).1 rfl

/-- C7: each of `set_color`, `set_intensity`, `set_direction` writes exactly
its own slot of the five-slot light uniform buffer (slot 0 color, slot 1
intensity, slot 2 direction) and leaves the contents of every other slot
unchanged. -/
theorem setters_slot_scoped (l : DirectionalLight) (color : Vec3) (intensity : ℝ)
    (direction : Vec3) (j : Fin 5) :
    ((l.set_color color).light_buffer.get 0 = color.to_slice ∧
      (j ≠ 0 → (l.set_color color).light_buffer.get j = l.light_buffer.get j)) ∧
    ((l.set_intensity intensity).light_buffer.get 1 = [intensity] ∧
      (j ≠ 1 → (l.set_intensity intensity).light_buffer.get j = l.light_buffer.get j)) ∧
    ((l.set_direction direction).light_buffer.get 2 = direction.normalize.to_slice ∧
      (j ≠ 2 → (l.set_direction direction).light_buffer.get j = l.light_buffer.get j)) := by
  refine ⟨⟨?_, fun hj => ?_⟩, ⟨?_, fun hj => ?_⟩, ⟨?_, fun hj => ?_⟩⟩
  · simp [DirectionalLight.set_color]
  · simp [DirectionalLight.set_color, UniformBuffer.get_update_ne _ _ _ _ hj]
  · simp [DirectionalLight.set_intensity]
  · simp [DirectionalLight.set_intensity, UniformBuffer.get_update_ne _ _ _ _ hj]
  · simp [DirectionalLight.set_direction]
  · simp [DirectionalLight.set_direction, UniformBuffer.get_update_ne _ _ _ _ hj]

/-- C7 witness: after each setter runs on a concrete light, the shadow-flag
slot 3 is unchanged. -/
theorem setters_slot_scoped_witness :
    (exampleLight.set_color (vec3 1 2 3)).light_buffer.get 3
        = exampleLight.light_buffer.get 3 ∧
    (exampleLight.set_intensity 5).light_buffer.get 3
        = exampleLight.light_buffer.get 3 ∧
    (exampleLight.set_direction (vec3 1 0 0)).light_buffer.get 3
        = exampleLight.light_buffer.get 3 := by
  have h := setters_slot_scoped exampleLight (vec3 1 2 3) 5 (vec3 1 0 0) 3
  exact ⟨h.1.2 (by decide), h.2.1.2 (by decide), h.2.2.2 (by decide)⟩

/-- C8: the render state passed by `render_with_color` is classified exactly by
`color.a != 255`: alpha 255 resolves to the opaque state (configured cull mode,
default write mask, no blending), any other alpha to the transparent state
(configured cull mode, color-only write mask without depth write,
src-alpha/one-minus-src-alpha blending, depth test still enabled). -/
theorem render_with_color_state_rule (m : InstancedModel) (color : Color) :
    m.render_with_color_states color = m.render_states (color.a != 255) ∧
    (color.a = 255 →
      m.render_with_color_states color
        = { RenderStates.default with cull := m.cull }) ∧
    (color.a ≠ 255 →
      m.render_with_color_states color
        = { cull := m.cull, write_mask := WriteMask.COLOR,
            blend := some BlendParameters.TRANSPARENCY,
            depth_test := DepthTestType.lessOrEqual }) ∧
    WriteMask.COLOR.depth = false ∧
    WriteMask.COLOR.red = true ∧ WriteMask.COLOR.green = true ∧
    WriteMask.COLOR.blue = true ∧ WriteMask.COLOR.alpha = true ∧
    BlendParameters.TRANSPARENCY
      = ⟨BlendFactor.srcAlpha, BlendFactor.oneMinusSrcAlpha⟩ ∧
    RenderStates.default.blend = none ∧
    RenderStates.default.write_mask = WriteMask.default := by
  refine ⟨rfl, fun h => ?_, fun h => ?_, rfl, rfl, rfl, rfl, rfl, rfl, rfl, rfl⟩
  · simp [InstancedModel.render_with_color_states, InstancedModel.render_states, h]
  · have hb : (color.a != 255) = true := by simpa using h
    simp [InstancedModel.render_with_color_states, InstancedModel.render_states, hb,
      RenderStates.default]

/-- C8 witness: alpha 255 resolves to the opaque state, alpha 128 to the
transparent state, on a model configured with back-face culling. -/
theorem render_with_color_state_rule_witness :
    (InstancedModel.mk CullType.back).render_with_color_states ⟨255, 255, 255, 255⟩
        = { RenderStates.default with cull := CullType.back } ∧
    (InstancedModel.mk CullType.back).render_with_color_states ⟨255, 255, 255, 128⟩
        = { cull := CullType.back, write_mask := WriteMask.COLOR,
            blend := some BlendParameters.TRANSPARENCY,
            depth_test := DepthTestType.lessOrEqual } :=
  ⟨(render_with_color_state_rule (InstancedModel.mk CullType.back) ⟨255, 255, 255, 255⟩).2.1
      rfl,
   (render_with_color_state_rule (InstancedModel.mk CullType.back) ⟨255, 255, 255, 128⟩).2.2.1
      (by decide)⟩

/-- C9: for a unit stored direction, `generate_shadow_map` constructs the
shadow camera with eye `target − 0.5·frustum_depth·direction`, looking at
`target` with the derived up vector and the given frustum extents, and stores
into slot 4 the column-major data of `bias · projection · view`, where `bias`
(the source's column-major `Mat4::new` literal) is the canonical matrix with
0.5 in the first three diagonal entries and last column `(0.5, 0.5, 0.5, 1)`. -/
theorem generate_shadow_map_camera_and_transform
    (projection view : Camera → Mat4) (in_frustum : Camera → AxisAlignedBoundingBox → Bool)
    (l : DirectionalLight) (target : Vec3)
    (frustrum_width frustrum_height frustrum_depth : ℝ)
    (texture_width texture_height : ℕ) (geometries : List Geometry)
    (h : l.direction.norm = 1) :
    ((l.generate_shadow_map projection view in_frustum true true true target
        frustrum_width frustrum_height frustrum_depth
        texture_width texture_height geometries).1).shadow_camera
      = some (Camera.new_orthographic
          (target.sub (Vec3.smul (0.5 * frustrum_depth) l.direction)) target
          (compute_up_direction l.direction)
          frustrum_width frustrum_height frustrum_depth) ∧
    ((l.generate_shadow_map projection view in_frustum true true true target
        frustrum_width frustrum_height frustrum_depth
        texture_width texture_height geometries).1).light_buffer.get 4
      = Mat4.to_slice (bias_matrix
          * projection (shadow_camera_of l.direction target
              frustrum_width frustrum_height frustrum_depth)
          * view (shadow_camera_of l.direction target
              frustrum_width frustrum_height frustrum_depth)) ∧
    bias_matrix
      = !![0.5, 0.0, 0.0, 0.5;
           0.0, 0.5, 0.0, 0.5;
           0.0, 0.0, 0.5, 0.5;
           0.0, 0.0, 0.0, 1.0] := by
  refine ⟨?_, ?_, rfl⟩
  · rw [DirectionalLight.generate_shadow_map_fst_camera,
      shadow_camera_of_norm_one _ _ _ _ _ h]
  · exact DirectionalLight.generate_shadow_map_fst_get4 projection view in_frustum true l
      target frustrum_width frustrum_height frustrum_depth
      texture_width texture_height geometries

/-- C9 witness: on a concrete light whose stored direction is the unit z
vector, the generated shadow camera and slot-4 transform have the stated
shape. -/
theorem generate_shadow_map_camera_and_transform_witness :
    ((exampleLight.generate_shadow_map (fun _ => 1) (fun _ => 1) (fun _ _ => true)
        true true true (vec3 0 0 0) 1 1 1 1 1 []).1).shadow_camera
      = some (Camera.new_orthographic
          ((vec3 0 0 0).sub (Vec3.smul (0.5 * 1) exampleLight.direction)) (vec3 0 0 0)
          (compute_up_direction exampleLight.direction) 1 1 1) :=
  (generate_shadow_map_camera_and_transform (fun _ => 1) (fun _ => 1) (fun _ _ => true)
    exampleLight (vec3 0 0 0) 1 1 1 1 1 []
    (by rw [exampleLight_direction]; exact vec3_unitZ_norm)).1

/-- C10: whenever `generate_shadow_map` returns an error — from camera
creation, the slot-4 transform update, a geometry depth render, or the final
slot-3 update itself — the shadow-enabled flag in slot 3 retains exactly the
value it had before the call: the write of 1.0 to slot 3 is the final step and
happens only after every other step has succeeded. -/
theorem generate_shadow_map_error_preserves_flag
    (projection view : Camera → Mat4) (in_frustum : Camera → AxisAlignedBoundingBox → Bool)
    (camera_ok update4_ok update3_ok : Bool)
    (l : DirectionalLight) (target : Vec3)
    (frustrum_width frustrum_height frustrum_depth : ℝ)
    (texture_width texture_height : ℕ) (geometries : List Geometry)
    (h : (l.generate_shadow_map projection view in_frustum camera_ok update4_ok update3_ok
        target frustrum_width frustrum_height frustrum_depth
        texture_width texture_height geometries).2 ≠ none) :
    ((l.generate_shadow_map projection view in_frustum camera_ok update4_ok update3_ok
        target frustrum_width frustrum_height frustrum_depth
        texture_width texture_height geometries).1).light_buffer.get 3
      = l.light_buffer.get 3 := by
  unfold DirectionalLight.generate_shadow_map at h ⊢
  cases camera_ok
  · simp
  · cases update4_ok
    · simp
    · simp only [eq_self_iff_true, if_true] at h ⊢
      cases update3_ok
      · split
        · simp
        · simp
      · split at h
        · simp at h
        · rename_i hall
          rw [if_neg hall]
          simp

/-- C10 witness: a failing camera creation returns an error and leaves the
flag slot of a concrete light untouched. -/
theorem generate_shadow_map_error_preserves_flag_witness :
    ((exampleLight.generate_shadow_map (fun _ => 1) (fun _ => 1) (fun _ _ => true)
        false true true (vec3 0 0 0) 1 1 1 1 1 []).1).light_buffer.get 3
      = exampleLight.light_buffer.get 3 :=
  generate_shadow_map_error_preserves_flag (fun _ => 1) (fun _ => 1) (fun _ _ => true)
    false true true exampleLight (vec3 0 0 0) 1 1 1 1 1 []
    (by simp [DirectionalLight.generate_shadow_map])

end ThreeD
